import Mathlib

/-!
Shallow embedding of the pastebin-lite UI client (src/src/App.jsx and the
paste viewer page) for specification checking.

Modelling conventions:
* Numeric literals are parsed exactly as scaled decimals `m * 10^e`
  (`Dec` below).  `Number(string)` conversion then rounds that exact value
  to an IEEE 754 binary64 value (`Bin` below: round-to-nearest,
  ties-to-even, overflow to infinity, underflow to zero), as the engine
  does, and the integer validation of `parsePositiveIntOrNull` runs on the
  rounded value.  Values inside parsed JSON response bodies are kept as
  exact decimals: the response-handling statements quantify over the
  parsed value itself, and only `Number(string)` — where the source
  applies `Number.isInteger` — needed the rounding step.
* JavaScript strings are Lean `String`s; `String.prototype.slice` counts
  UTF-16 code units while the model counts characters, which agree on all
  BMP text.
* Fallible JavaScript operations (`JSON.parse`) return `Option`.
* Each UI action is a pure function from the component state and the HTTP
  response to the next state, paired with `Option Request`: the request the
  action sent, or `none` when it returned before any network call.
-/

/-! ## Exact decimal numbers -/

/-- An exact JavaScript numeric value `m * 10^e`, as denoted by a decimal,
hexadecimal, octal or binary literal. -/
structure Dec where
  m : ℤ
  e : ℤ
deriving DecidableEq

/-- `10 ^ k` as an integer (via kernel-accelerated `Nat.pow`). -/
def pow10 (k : ℕ) : ℤ :=
  ((10 ^ k : ℕ) : ℤ)

/-- Whether the denoted value is a mathematical integer
(`Number.isInteger` on a finite value). -/
def Dec.isInt (d : Dec) : Bool :=
  0 ≤ d.e ∨ d.m % pow10 (-d.e).toNat = 0

/-- Whether the denoted value is at least 1 (the `n < 1` test negated). -/
def Dec.oneLe (d : Dec) : Bool :=
  if 0 ≤ d.e then 1 ≤ d.m * pow10 d.e.toNat else pow10 (-d.e).toNat ≤ d.m

def Dec.neg (d : Dec) : Dec :=
  ⟨-d.m, d.e⟩

def Dec.isZero (d : Dec) : Bool :=
  d.m = 0

/-! ## JavaScript white space and trimming

`String.prototype.trim` and string-to-number conversion strip the same set:
ECMAScript WhiteSpace (TAB, VT, FF, SP, NBSP, ZWNBSP and the Zs category)
plus LineTerminator (LF, CR, LS, PS). -/

def jsWhitespaceChar (c : Char) : Bool :=
  c.val = 0x09 || c.val = 0x0A || c.val = 0x0B || c.val = 0x0C ||
  c.val = 0x0D || c.val = 0x20 || c.val = 0xA0 || c.val = 0x1680 ||
  (0x2000 ≤ c.val && c.val ≤ 0x200A) || c.val = 0x2028 || c.val = 0x2029 ||
  c.val = 0x202F || c.val = 0x205F || c.val = 0x3000 || c.val = 0xFEFF

def jsTrimList (cs : List Char) : List Char :=
  ((cs.dropWhile jsWhitespaceChar).reverse.dropWhile jsWhitespaceChar).reverse

/-- Model of `String.prototype.trim`. -/
def jsTrim (s : String) : String :=
  String.mk (jsTrimList s.data)

/-! ## `Number(string)` — ECMAScript StringNumericLiteral -/

/-- The exact mathematical value denoted by a numeric string, before the
engine rounds it to binary64: NaN, a signed infinity, or an exact scaled
decimal. -/
inductive ExactNum where
  | nan
  | inf (neg : Bool)
  | finite (d : Dec)
deriving DecidableEq

def decDigitVal (c : Char) : Option ℕ :=
  if c.isDigit then some (c.toNat - 48) else none

def hexDigitVal (c : Char) : Option ℕ :=
  if c.isDigit then some (c.toNat - 48)
  else if 'a' ≤ c ∧ c ≤ 'f' then some (c.toNat - 87)
  else if 'A' ≤ c ∧ c ≤ 'F' then some (c.toNat - 55)
  else none

def octDigitVal (c : Char) : Option ℕ :=
  if '0' ≤ c ∧ c ≤ '7' then some (c.toNat - 48) else none

def binDigitVal (c : Char) : Option ℕ :=
  if c = '0' ∨ c = '1' then some (c.toNat - 48) else none

/-- Take the longest run of characters accepted by `f`, returning their
digit values and the remaining characters. -/
def takeDigits (f : Char → Option ℕ) : List Char → List ℕ × List Char
  | [] => ([], [])
  | c :: r =>
    match f c with
    | some d => let (ds, rest) := takeDigits f r; (d :: ds, rest)
    | none => ([], c :: r)

def digitsVal (base : ℕ) (ds : List ℕ) : ℕ :=
  ds.foldl (fun a d => a * base + d) 0

/-- A NonDecimalIntegerLiteral (`0x…`, `0o…`, `0b…`), which must span the
whole trimmed input and admits no sign. -/
def parseNonDecimalLit (cs : List Char) : Option Dec :=
  match cs with
  | '0' :: c :: rest =>
    let base? : Option ℕ :=
      if c = 'x' ∨ c = 'X' then some 16
      else if c = 'o' ∨ c = 'O' then some 8
      else if c = 'b' ∨ c = 'B' then some 2
      else none
    match base? with
    | some b =>
      let f := if b = 16 then hexDigitVal else if b = 8 then octDigitVal else binDigitVal
      let (ds, r) := takeDigits f rest
      if ds ≠ [] ∧ r = [] then some ⟨(digitsVal b ds : ℕ), 0⟩ else none
    | none => none
  | _ => none

/-- An ExponentPart that must consume the rest of the literal; absence of an
exponent yields `0`. -/
def parseExpTail (cs : List Char) : Option ℤ :=
  match cs with
  | [] => some 0
  | c :: rest =>
    if c = 'e' ∨ c = 'E' then
      let (neg, r2) := match rest with
        | '+' :: r => (false, r)
        | '-' :: r => (true, r)
        | r => (false, r)
      let (ds, r3) := takeDigits decDigitVal r2
      if ds ≠ [] ∧ r3 = [] then
        some (if neg then -((digitsVal 10 ds : ℕ) : ℤ) else ((digitsVal 10 ds : ℕ) : ℤ))
      else none
    else none

/-- StrUnsignedDecimalLiteral: `digits [. digits] [exp]` or `. digits [exp]`,
spanning the whole remaining input.  The denoted value is
`(intDigits ++ fracDigits) * 10 ^ (exp - #fracDigits)`. -/
def parseStrUnsignedDec (cs : List Char) : Option Dec :=
  let (ids, r1) := takeDigits decDigitVal cs
  match r1 with
  | '.' :: r2 =>
    let (fds, r3) := takeDigits decDigitVal r2
    if ids = [] ∧ fds = [] then none
    else
      (parseExpTail r3).map (fun e =>
        ⟨(digitsVal 10 (ids ++ fds) : ℕ), e - fds.length⟩)
  | _ =>
    if ids = [] then none
    else (parseExpTail r1).map (fun e => ⟨(digitsVal 10 ids : ℕ), e⟩)

/-- The StringNumericLiteral grammar of ECMAScript `Number(string)`: trim,
empty means zero, otherwise a non-decimal integer literal, optionally
signed `Infinity`, or an optionally signed decimal literal; anything else
is NaN.  The result is the literal's exact value, not yet rounded. -/
def jsToNumberExact (s : String) : ExactNum :=
  let cs := jsTrimList s.data
  if cs.isEmpty then .finite ⟨0, 0⟩
  else
    match parseNonDecimalLit cs with
    | some d => .finite d
    | none =>
      let (neg, rest) := match cs with
        | '+' :: r => (false, r)
        | '-' :: r => (true, r)
        | r => (false, r)
      if rest = "Infinity".data then .inf neg
      else
        match parseStrUnsignedDec rest with
        | some d => .finite (if neg then d.neg else d)
        | none => .nan

/-! ## Binary64 rounding

ECMAScript `Number` values are IEEE 754 doubles: the exact literal value is
rounded to 53 significant bits, round-to-nearest ties-to-even, with
subnormals below `2^-1022`, underflow to zero, and overflow to infinity at
`2^1024`.  All arithmetic here is exact over `ℕ`/`ℤ`. -/

/-- A finite binary64 value `m * 2^k` (sign carried by `m`); zero is
`⟨0, 0⟩`.  Produced only through `roundPosRat`, so `|m| < 2^53` and
`-1074 ≤ k ≤ 971`. -/
structure Bin where
  m : ℤ
  k : ℤ
deriving DecidableEq

/-- `2 ^ k` as an integer (via kernel-accelerated `Nat.pow`). -/
def pow2int (k : ℕ) : ℤ :=
  ((2 ^ k : ℕ) : ℤ)

/-- Fuelled bit length: `bitLenAux fuel n` halves `n` until zero. -/
def bitLenAux : ℕ → ℕ → ℕ
  | 0, _ => 0
  | fuel + 1, n => if n = 0 then 0 else bitLenAux fuel (n / 2) + 1

/-- Number of binary digits of `n`, i.e. `⌊log2 n⌋ + 1` for positive `n`
(`n` itself is enough fuel). -/
def bitLen (n : ℕ) : ℕ :=
  bitLenAux n n

/-- Round `n / d` (`d > 0`) to the nearest integer, ties to even. -/
def rne (n d : ℕ) : ℕ :=
  let q := n / d
  let r := n % d
  if 2 * r < d then q
  else if d < 2 * r then q + 1
  else if q % 2 = 0 then q else q + 1

/-- `⌊log2 (a / b)⌋` for positive naturals: the bit-length difference `g`
satisfies `2^(g-1) < a/b < 2^(g+1)`, and one comparison settles which. -/
def ratFloorLog2 (a b : ℕ) : ℤ :=
  let g : ℤ := (bitLen a : ℤ) - (bitLen b : ℤ)
  if b * 2 ^ g.toNat ≤ a * 2 ^ (-g).toNat then g else g - 1

/-- Round the positive rational `a / b` to the nearest binary64 value:
`none` is overflow to infinity, otherwise the value is `s * 2^k` (`s = 0`
when the value underflows to zero).  The scale `k` gives normals a 53-bit
significand and is clamped at `2^-1074` for subnormals; a rounded result
at or above `2^1024` overflows (so the carry case `s = 2^53` renormalises
or overflows). -/
def roundPosRat (a b : ℕ) : Option (ℕ × ℤ) :=
  let e := ratFloorLog2 a b
  let k : ℤ := if e - 52 < -1074 then -1074 else e - 52
  let s := rne (a * 2 ^ (-k).toNat) (b * 2 ^ k.toNat)
  if 2 ^ 53 ≤ s then
    if 971 < k + 1 then none else some (2 ^ 52, k + 1)
  else if 971 < k then none else some (s, k)

/-- A JavaScript number as produced by `Number(string)`: NaN, a signed
infinity, or a finite binary64 value. -/
inductive JSNum where
  | nan
  | inf (neg : Bool)
  | finite (b : Bin)
deriving DecidableEq

/-- Round an exact decimal to its binary64 value (the rounding applied to
the sign-stripped magnitude, as IEEE rounding is sign-symmetric). -/
def Dec.toF64 (d : Dec) : JSNum :=
  if d.m = 0 then .finite ⟨0, 0⟩
  else
    let a := d.m.natAbs * 10 ^ d.e.toNat
    let b := 10 ^ (-d.e).toNat
    match roundPosRat a b with
    | none => .inf (d.m < 0)
    | some (s, k) => .finite ⟨if d.m < 0 then -(s : ℤ) else (s : ℤ), k⟩

/-- Model of ECMAScript `Number(string)`: the exact literal value rounded
to binary64.  In particular `Number("1.0000000000000001")` is exactly 1
and `Number("1e400")` is `Infinity`, as in the engine. -/
def jsToNumber (s : String) : JSNum :=
  match jsToNumberExact s with
  | .nan => .nan
  | .inf n => .inf n
  | .finite d => d.toF64

/-- `Number.isInteger` on a finite binary64 value. -/
def Bin.isInt (b : Bin) : Bool :=
  0 ≤ b.k ∨ b.m % pow2int (-b.k).toNat = 0

/-- Whether the binary64 value is at least 1 (the `n < 1` test negated). -/
def Bin.oneLe (b : Bin) : Bool :=
  if 0 ≤ b.k then 1 ≤ b.m * pow2int b.k.toNat else pow2int (-b.k).toNat ≤ b.m

/-- The binary64 value as an integer; exact whenever `b.isInt`. -/
def Bin.toInt (b : Bin) : ℤ :=
  if 0 ≤ b.k then b.m * pow2int b.k.toNat else b.m / pow2int (-b.k).toNat

/-! ## `parsePositiveIntOrNull` (App.jsx lines 12–17) -/

/-- Result of `parsePositiveIntOrNull`: the JS function returns `null`,
`NaN`, or the integer value. -/
inductive ParseResult where
  | null
  | nan
  | val (n : ℤ)
deriving DecidableEq

/-- Embeds `parsePositiveIntOrNull(v)`.  The `v == null` guard of the source
cannot fire here because the form state is always a string.  `Number(v)`
rounds to binary64 first; `Number.isInteger` then holds exactly for finite
integral values, and the source rejects `n < 1`. -/
def parsePositiveIntOrNull (v : String) : ParseResult :=
  if v = "" then .null
  else
    match jsToNumber v with
    | .finite b => if !b.isInt || !b.oneLe then .nan else .val b.toInt
    | _ => .nan

/-- The spec-level predicate for "is a positive integer": the string's
exact numeric value (before rounding) is an integer not below 1. -/
def denotesPositiveInt (v : String) : Bool :=
  match jsToNumberExact v with
  | .finite d => d.isInt && d.oneLe
  | _ => false

/-- The engine-level counterpart: `Number(v)` — after binary64 rounding —
is an integer not below 1. -/
def numberIsPositiveInt (v : String) : Bool :=
  match jsToNumber v with
  | .finite b => b.isInt && b.oneLe
  | _ => false

example : jsToNumberExact "1.5" = .finite ⟨15, -1⟩ := by decide
example : jsToNumber "abc" = .nan := by decide
example : jsToNumber "Infinity" = .inf false := by decide

set_option exponentiation.threshold 3000 in
set_option maxRecDepth 200000 in
example : jsToNumber "1e400" = .inf false := by decide

set_option exponentiation.threshold 3000 in
set_option maxRecDepth 200000 in
example : parsePositiveIntOrNull "1e400" = .nan := by decide

example : parsePositiveIntOrNull "" = .null := by decide
example : parsePositiveIntOrNull "0" = .nan := by decide
example : parsePositiveIntOrNull "-1" = .nan := by decide
example : parsePositiveIntOrNull "1.5" = .nan := by decide
example : parsePositiveIntOrNull "abc" = .nan := by decide
example : parsePositiveIntOrNull "7" = .val 7 := by decide
example : parsePositiveIntOrNull "2.0" = .val 2 := by decide
example : parsePositiveIntOrNull "  12 " = .val 12 := by decide
example : parsePositiveIntOrNull "0x10" = .val 16 := by decide
example : parsePositiveIntOrNull "1e3" = .val 1000 := by decide
example : parsePositiveIntOrNull "1.0000000000000001" = .val 1 := by decide
example : parsePositiveIntOrNull "9007199254740993" = .val 9007199254740992 := by decide
example : denotesPositiveInt "1.0000000000000001" = false := by decide
example : numberIsPositiveInt "1.0000000000000001" = true := by decide

/-! ## JSON values and `JSON.parse` -/

/-- A JSON value as produced by `JSON.parse`.  Numbers carry the exact scaled
decimal denoted by the literal. -/
inductive Json where
  | null
  | bool (b : Bool)
  | num (d : Dec)
  | str (s : String)
  | arr (elems : List Json)
  | obj (fields : List (String × Json))

def lbraceChar : Char := Char.ofNat 123
def rbraceChar : Char := Char.ofNat 125

def jsonWsDrop (cs : List Char) : List Char :=
  cs.dropWhile (fun c => c = ' ' ∨ c = '\t' ∨ c = '\n' ∨ c = '\r')

/-- JSON string body after the opening quote.  Escapes are decoded; a
`\uXXXX` high surrogate followed by a low surrogate combines into one
scalar, while a lone surrogate (representable in a JS string but not in a
Lean `String`) becomes U+FFFD. -/
def parseJsonStringAux : ℕ → List Char → List Char → Option (String × List Char)
  | 0, _, _ => none
  | fuel + 1, acc, cs =>
    match cs with
    | [] => none
    | '"' :: rest => some (String.mk acc.reverse, rest)
    | '\\' :: e :: rest =>
      match e with
      | '"' => parseJsonStringAux fuel ('"' :: acc) rest
      | '\\' => parseJsonStringAux fuel ('\\' :: acc) rest
      | '/' => parseJsonStringAux fuel ('/' :: acc) rest
      | 'b' => parseJsonStringAux fuel (Char.ofNat 8 :: acc) rest
      | 'f' => parseJsonStringAux fuel (Char.ofNat 12 :: acc) rest
      | 'n' => parseJsonStringAux fuel ('\n' :: acc) rest
      | 'r' => parseJsonStringAux fuel ('\r' :: acc) rest
      | 't' => parseJsonStringAux fuel ('\t' :: acc) rest
      | 'u' =>
        match rest with
        | a :: b :: c :: d :: r2 =>
          match hexDigitVal a, hexDigitVal b, hexDigitVal c, hexDigitVal d with
          | some ha, some hb, some hc, some hd =>
            let n := ((ha * 16 + hb) * 16 + hc) * 16 + hd
            if 0xD800 ≤ n ∧ n ≤ 0xDBFF then
              match r2 with
              | '\\' :: 'u' :: a2 :: b2 :: c2 :: d2 :: r3 =>
                match hexDigitVal a2, hexDigitVal b2, hexDigitVal c2, hexDigitVal d2 with
                | some h2a, some h2b, some h2c, some h2d =>
                  let n2 := ((h2a * 16 + h2b) * 16 + h2c) * 16 + h2d
                  if 0xDC00 ≤ n2 ∧ n2 ≤ 0xDFFF then
                    let scalar := 0x10000 + (n - 0xD800) * 0x400 + (n2 - 0xDC00)
                    parseJsonStringAux fuel (Char.ofNat scalar :: acc) r3
                  else parseJsonStringAux fuel (Char.ofNat 0xFFFD :: acc) r2
                | _, _, _, _ => parseJsonStringAux fuel (Char.ofNat 0xFFFD :: acc) r2
              | _ => parseJsonStringAux fuel (Char.ofNat 0xFFFD :: acc) r2
            else if 0xDC00 ≤ n ∧ n ≤ 0xDFFF then
              parseJsonStringAux fuel (Char.ofNat 0xFFFD :: acc) r2
            else parseJsonStringAux fuel (Char.ofNat n :: acc) r2
          | _, _, _, _ => none
        | _ => none
      | _ => none
    | c :: rest =>
      if c.val < 0x20 then none else parseJsonStringAux fuel (c :: acc) rest

/-- A JSON number: `-? (0 | [1-9][0-9]*) (. [0-9]+)? ([eE][+-]?[0-9]+)?`. -/
def parseJsonNumber (cs : List Char) : Option (Dec × List Char) :=
  let (neg, cs1) := match cs with
    | '-' :: r => (true, r)
    | r => (false, r)
  let (ids, r1) := takeDigits decDigitVal cs1
  if ids = [] then none
  else if ids.length > 1 ∧ cs1.head? = some '0' then none
  else
    let step2 : Option (List ℕ × List Char) :=
      match r1 with
      | '.' :: r2 =>
        let (fds, r3) := takeDigits decDigitVal r2
        if fds = [] then none else some (fds, r3)
      | _ => some ([], r1)
    match step2 with
    | none => none
    | some (fds, r3) =>
      let step3 : Option (ℤ × List Char) :=
        match r3 with
        | c :: r4 =>
          if c = 'e' ∨ c = 'E' then
            let (eneg, r5) := match r4 with
              | '+' :: r => (false, r)
              | '-' :: r => (true, r)
              | r => (false, r)
            let (eds, r6) := takeDigits decDigitVal r5
            if eds = [] then none
            else some ((if eneg then -((digitsVal 10 eds : ℕ) : ℤ) else ((digitsVal 10 eds : ℕ) : ℤ)), r6)
          else some (0, r3)
        | [] => some (0, [])
      match step3 with
      | none => none
      | some (e, r4) =>
        let mag : ℤ := (digitsVal 10 (ids ++ fds) : ℕ)
        some (⟨if neg then -mag else mag, e - fds.length⟩, r4)

mutual

/-- One JSON value starting at the current position. -/
def parseJVal : ℕ → List Char → Option (Json × List Char)
  | 0, _ => none
  | fuel + 1, cs =>
    match cs with
    | 'n' :: 'u' :: 'l' :: 'l' :: r => some (.null, r)
    | 't' :: 'r' :: 'u' :: 'e' :: r => some (.bool true, r)
    | 'f' :: 'a' :: 'l' :: 's' :: 'e' :: r => some (.bool false, r)
    | '"' :: r =>
      (parseJsonStringAux (r.length + 1) [] r).map (fun p => (.str p.1, p.2))
    | '[' :: r =>
      let r1 := jsonWsDrop r
      match r1 with
      | c :: r2 => if c = ']' then some (.arr [], r2) else parseJArrItems fuel r1 []
      | [] => none
    | c :: r =>
      if c = lbraceChar then
        let r1 := jsonWsDrop r
        match r1 with
        | c2 :: r2 => if c2 = rbraceChar then some (.obj [], r2) else parseJObjItems fuel r1 []
        | [] => none
      else (parseJsonNumber cs).map (fun p => (.num p.1, p.2))
    | [] => none

/-- Array elements, after `[` and leading white space, first element next. -/
def parseJArrItems : ℕ → List Char → List Json → Option (Json × List Char)
  | 0, _, _ => none
  | fuel + 1, cs, acc =>
    match parseJVal fuel cs with
    | none => none
    | some (v, r1) =>
      match jsonWsDrop r1 with
      | ',' :: r3 => parseJArrItems fuel (jsonWsDrop r3) (v :: acc)
      | c :: r3 => if c = ']' then some (.arr (v :: acc).reverse, r3) else none
      | [] => none

/-- Object members, after the brace and leading white space, first key next. -/
def parseJObjItems : ℕ → List Char → List (String × Json) → Option (Json × List Char)
  | 0, _, _ => none
  | fuel + 1, cs, acc =>
    match cs with
    | '"' :: r =>
      match parseJsonStringAux (r.length + 1) [] r with
      | none => none
      | some (k, r1) =>
        match jsonWsDrop r1 with
        | ':' :: r3 =>
          match parseJVal fuel (jsonWsDrop r3) with
          | none => none
          | some (v, r4) =>
            match jsonWsDrop r4 with
            | ',' :: r6 => parseJObjItems fuel (jsonWsDrop r6) ((k, v) :: acc)
            | c :: r6 => if c = rbraceChar then some (.obj ((k, v) :: acc).reverse, r6) else none
            | [] => none
        | _ => none
    | _ => none

end

/-- Model of `JSON.parse`: `none` models a thrown `SyntaxError`. -/
def jsonParse (s : String) : Option Json :=
  let cs := jsonWsDrop s.data
  match parseJVal (4 * (cs.length + 1)) cs with
  | some (v, rest) => if jsonWsDrop rest = [] then some v else none
  | none => none

/-! ## JavaScript value operations on parsed JSON -/

/-- JS truthiness of a parsed JSON value (`!json`, `json?.error || …`). -/
def jsTruthy : Json → Bool
  | .null => false
  | .bool b => b
  | .num d => !d.isZero
  | .str s => s ≠ ""
  | .arr _ => true
  | .obj _ => true

def jsTruthyOpt : Option Json → Bool
  | none => false
  | some j => jsTruthy j

/-- Field lookup in an object's member list; on duplicate keys the last
occurrence wins, as in `JSON.parse`. -/
def getField (fields : List (String × Json)) (k : String) : Option Json :=
  (fields.reverse.find? (fun p => p.1 = k)).map (fun p => p.2)

/-- Models `x?.k` on a parsed JSON value: `undefined` (`none`) when `x` is
`null` or has no own property `k`; primitives and arrays have none of the
property names used by this client. -/
def jsGet (j : Json) (k : String) : Option Json :=
  match j with
  | .obj fs => getField fs k
  | _ => none

example : jsonParse "null" = some .null := by rfl
example : jsonParse "[1, 2]" = some (.arr [.num ⟨1, 0⟩, .num ⟨2, 0⟩]) := by rfl
example : jsonParse "\x7b\"id\":\"abc123\"\x7d" = some (.obj [("id", .str "abc123")]) := by rfl
example : jsonParse "<html>oops" = none := by rfl
example : jsonParse " -1.25e2 " = some (.num ⟨-125, 0⟩) := by rfl
example : jsonParse "-1.25" = some (.num ⟨-125, -2⟩) := by rfl
example : jsonParse "\x7b\"a\":[true,false,null]\x7d"
    = some (.obj [("a", .arr [.bool true, .bool false, .null])]) := by rfl
example : jsonParse "01" = none := by rfl
example : jsonParse "\x7b\"error\":\"Not found\"\x7d" = some (.obj [("error", .str "Not found")]) := by rfl

/-! ## JS `String()` conversion of parsed JSON values -/

/-- Divide out trailing decimal zeros of the mantissa (fuelled). -/
def stripZeros : ℕ → ℕ → ℤ → ℕ × ℤ
  | 0, m, e => (m, e)
  | fuel + 1, m, e =>
    if m ≠ 0 ∧ m % 10 = 0 then stripZeros fuel (m / 10) (e + 1) else (m, e)

/-- JS `ToString` on a finite number value.  Plain decimal positional
notation; the exponential form ECMAScript switches to beyond `1e21` /
below `1e-6` is not modelled (no verified property evaluates it there). -/
def decToString (d : Dec) : String :=
  if d.m = 0 then "0"
  else
    let sign := if d.m < 0 then "-" else ""
    let (m, e) := stripZeros d.m.natAbs d.m.natAbs d.e
    let s := toString m
    if 0 ≤ e then sign ++ s ++ String.mk (List.replicate e.toNat '0')
    else
      let k := (-e).toNat
      if k < s.length then
        sign ++ String.mk (s.data.take (s.length - k)) ++ "." ++
          String.mk (s.data.drop (s.length - k))
      else sign ++ "0." ++ String.mk (List.replicate (k - s.length) '0') ++ s

mutual

/-- JS `String(x)` on a parsed JSON value (used for `new Error(x)` messages,
the `paste-…` file name template, and `setPasteId`). -/
def jsToString : Json → String
  | .null => "null"
  | .bool true => "true"
  | .bool false => "false"
  | .num d => decToString d
  | .str s => s
  | .arr xs => jsArrJoin xs
  | .obj _ => "[object Object]"
termination_by structural j => j

/-- `Array.prototype.toString` = `join(",")`, where `null` elements become
the empty string. -/
def jsArrJoin : List Json → String
  | [] => ""
  | [Json.null] => ""
  | [x] => jsToString x
  | Json.null :: y :: r => "," ++ jsArrJoin (y :: r)
  | x :: y :: r => jsToString x ++ "," ++ jsArrJoin (y :: r)
termination_by structural xs => xs

end

/-! ## Response decoder (`safeJsonResponse`, App.jsx lines 19–27) -/

/-- The decoded pair `{ json, text }`.  The `json` slot holds the parsed
value, or JS `null` when `JSON.parse` threw. -/
structure Decoded where
  json : Json
  text : String

/-- `safeJsonResponse` applied to the body text: parse safely, returning
both the (possibly absent, i.e. `null`) parsed value and the raw text. -/
def safeJsonResponse (text : String) : Decoded :=
  match jsonParse text with
  | some j => ⟨j, text⟩
  | none => ⟨.null, text⟩

/-- A response body as a one-shot stream: `resp.text()` consumes it and we
count the reads. -/
structure BodyStream where
  text : String
  readsDone : ℕ

/-- `await resp.text()`. -/
def readBodyText (b : BodyStream) : String × BodyStream :=
  (b.text, ⟨b.text, b.readsDone + 1⟩)

/-- `safeJsonResponse` at the stream level: one `text()` read, then the safe
parse.  Total — a malformed body lands in the `catch` branch, never raises. -/
def safeJsonResponseStream (b : BodyStream) : Decoded × BodyStream :=
  let (text, b2) := readBodyText b
  (safeJsonResponse text, b2)

/-! ## HTTP plumbing -/

/-- An HTTP response as the client observes it: a status and a body. -/
structure Resp where
  status : ℕ
  body : String

/-- `r.ok`: status in the inclusive range 200–299. -/
def Resp.ok (r : Resp) : Bool :=
  200 ≤ r.status && r.status < 300

/-- A request issued through `fetch`. -/
inductive Request where
  | post (path : String) (body : List (String × Json))
  | get (path : String)

def uriUnreservedChar (c : Char) : Bool :=
  c.isAlphanum || c = '-' || c = '_' || c = '.' || c = '!' || c = '~' ||
  c = '*' || c = Char.ofNat 39 || c = '(' || c = ')'

def hexUpperChar (n : ℕ) : Char :=
  if n < 10 then Char.ofNat (48 + n) else Char.ofNat (55 + n)

/-- The UTF-8 bytes of one character. -/
def utf8Bytes (c : Char) : List ℕ :=
  let n := c.toNat
  if n < 0x80 then [n]
  else if n < 0x800 then [0xC0 + n / 0x40, 0x80 + n % 0x40]
  else if n < 0x10000 then
    [0xE0 + n / 0x1000, 0x80 + (n / 0x40) % 0x40, 0x80 + n % 0x40]
  else
    [0xF0 + n / 0x40000, 0x80 + (n / 0x1000) % 0x40, 0x80 + (n / 0x40) % 0x40,
     0x80 + n % 0x40]

def percentEncodeByte (b : ℕ) : List Char :=
  ['%', hexUpperChar (b / 16), hexUpperChar (b % 16)]

/-- Model of `encodeURIComponent`: keep unreserved characters, percent-encode
the UTF-8 bytes of everything else. -/
def encodeURIComponent (s : String) : String :=
  String.mk (s.data.foldr
    (fun c acc =>
      if uriUnreservedChar c then c :: acc
      else (utf8Bytes c).foldr (fun b acc2 => percentEncodeByte b ++ acc2) acc)
    [])

/-! ## Error-message construction

`throw new Error(json?.error || fallback)` followed by
`setXErr(String(e.message || e))`: a truthy `error` field is stringified,
otherwise the synthesized fallback is used; an empty resulting message would
display as `"Error"` (`String(e)` on a message-less `Error`). -/

def strTake (s : String) (n : ℕ) : String :=
  String.mk (s.data.take n)

/-- `text?.slice(0, n) || fallback`. -/
def truncOr (text : String) (n : ℕ) (fallback : String) : String :=
  let t := strTake text n
  if t = "" then fallback else t

/-- The synthesized message `` `HTTP ${status} - ${text.slice(0, n) || fb}` ``. -/
def httpErrSynth (status : ℕ) (text : String) (n : ℕ) (fallback : String) : String :=
  "HTTP " ++ toString status ++ " - " ++ truncOr text n fallback

/-- `String(new Error(errField || synth).message || e)`. -/
def jsErrMessage (errField : Option Json) (synth : String) : String :=
  let m := match errField with
    | some v => if jsTruthy v then jsToString v else synth
    | none => synth
  if m = "" then "Error" else m

/-! ## Panel state and actions (App.jsx) -/

/-- The `App` component's `useState` slots. -/
structure ClientState where
  content : String
  ttl : String
  maxViews : String
  createRes : Option Json
  createErr : String
  pasteId : String
  fetchRes : Option Json
  fetchErr : String
  healthRes : Option Json
  healthErr : String
  loading : Bool

/-- `checkHealth` (lines 66–88): clear the health slots, GET `/api/healthz`,
then decode; non-2xx or falsy JSON throws into the local catch. -/
def checkHealth (s : ClientState) (resp : Resp) : ClientState × Option Request :=
  let s1 : ClientState := { s with healthErr := "", healthRes := none, loading := true }
  let d := safeJsonResponse resp.body
  let s2 : ClientState :=
    if !resp.ok then
      { s1 with healthErr :=
          jsErrMessage (jsGet d.json "error") (httpErrSynth resp.status d.text 120 "error") }
    else if !jsTruthy d.json then
      { s1 with healthErr := "Healthz returned non-JSON (HTTP " ++ toString resp.status ++ ")." }
    else
      { s1 with healthRes := some d.json }
  ({ s2 with loading := false }, some (.get "/api/healthz"))

/-- The request body built by `createPaste` (lines 110–112): `content`
always, `ttl_seconds`/`max_views` only when `parsePositiveIntOrNull`
returned a value (i.e. not `null` for the empty string). -/
def createBody (s : ClientState) : List (String × Json) :=
  [("content", Json.str (jsTrim s.content))]
    ++ (match parsePositiveIntOrNull s.ttl with
        | .val n => [("ttl_seconds", Json.num ⟨n, 0⟩)]
        | _ => [])
    ++ (match parsePositiveIntOrNull s.maxViews with
        | .val n => [("max_views", Json.num ⟨n, 0⟩)]
        | _ => [])

/-- `createPaste` (lines 90–138).  Validation happens before `fetch`; on a
validation failure the second component is `none` (no request sent).  On
success the full payload is stored and the fetch-panel identifier field is
auto-filled (a non-string `id` value would be rendered as its string
conversion by the controlled input). -/
def createPaste (s : ClientState) (resp : Resp) : ClientState × Option Request :=
  let s1 : ClientState := { s with createErr := "", createRes := none }
  let ttlVal := parsePositiveIntOrNull s.ttl
  let mvVal := parsePositiveIntOrNull s.maxViews
  if jsTrim s.content = "" then
    ({ s1 with createErr := "Content is required." }, none)
  else if ttlVal = .nan then
    ({ s1 with createErr := "ttl_seconds must be an integer ≥ 1" }, none)
  else if mvVal = .nan then
    ({ s1 with createErr := "max_views must be an integer ≥ 1" }, none)
  else
    let body := createBody s
    let s2 : ClientState := { s1 with loading := true }
    let d := safeJsonResponse resp.body
    let s3 : ClientState :=
      if !resp.ok then
        { s2 with createErr :=
            jsErrMessage (jsGet d.json "error") (httpErrSynth resp.status d.text 140 "error") }
      else if !jsTruthyOpt (jsGet d.json "id") then
        { s2 with createErr := "Unexpected response: missing paste id." }
      else
        { s2 with createRes := some d.json,
                  pasteId := jsToString ((jsGet d.json "id").getD Json.null) }
    ({ s3 with loading := false }, some (.post "/api/pastes" body))

/-- `fetchPaste` (lines 140–169).  An all-white-space identifier is a
validation failure; otherwise one GET to the percent-encoded resource path. -/
def fetchPaste (s : ClientState) (resp : Resp) : ClientState × Option Request :=
  let s1 : ClientState := { s with fetchErr := "", fetchRes := none }
  let id := jsTrim s.pasteId
  if id = "" then
    ({ s1 with fetchErr := "Paste ID is required." }, none)
  else
    let s2 : ClientState := { s1 with loading := true }
    let d := safeJsonResponse resp.body
    let s3 : ClientState :=
      if !resp.ok then
        { s2 with fetchErr :=
            jsErrMessage (jsGet d.json "error") (httpErrSynth resp.status d.text 140 "Not found") }
      else if !jsTruthy d.json then
        { s2 with fetchErr := "Non-JSON response (HTTP " ++ toString resp.status ++ ")." }
      else
        { s2 with fetchRes := some d.json }
    ({ s3 with loading := false }, some (.get ("/api/pastes/" ++ encodeURIComponent id)))

/-! ## Paste viewer page (src/unnamed/part_000) -/

/-- The `PasteView` component's state slots. -/
structure ViewState where
  paste : Option Json
  loading : Bool
  error : String

/-- Initial state: `loading` starts `true`. -/
def viewInit : ViewState :=
  ⟨none, true, ""⟩

/-- The mount effect's `fetchPaste` (part_000 lines 22–50): a missing route
identifier is reported without a request; otherwise the same GET/decode
logic as the panel's fetch action. -/
def viewFetch (routeId : String) (s : ViewState) (resp : Resp) : ViewState × Option Request :=
  if routeId = "" then
    ({ s with error := "No paste ID provided", loading := false }, none)
  else
    let d := safeJsonResponse resp.body
    let s2 : ViewState :=
      if !resp.ok then
        { s with error :=
            jsErrMessage (jsGet d.json "error") (httpErrSynth resp.status d.text 140 "Not found") }
      else if !jsTruthy d.json then
        { s with error := "Non-JSON response (HTTP " ++ toString resp.status ++ ")." }
      else
        { s with paste := some d.json }
    ({ s2 with loading := false }, some (.get ("/api/pastes/" ++ encodeURIComponent routeId)))

/-- Browser-level effects of the download click handler. -/
inductive BrowserEffect where
  | createObjectURL (blobContent : String) (blobType : String)
  | anchorClick (href : String) (downloadName : String)
  | revokeObjectURL (url : String)

/-- The download button's click handler (part_000 lines 152–161): build a
`text/plain` blob from the content, create an object URL, click an anchor
named `` `paste-${paste.id}.txt` `` pointing at it, then revoke the URL.
`url` is the browser-chosen object URL. -/
def downloadClick (paste : Json) (url : String) : List BrowserEffect :=
  [ .createObjectURL (jsToString ((jsGet paste "content").getD Json.null)) "text/plain",
    .anchorClick url ("paste-" ++ jsToString ((jsGet paste "id").getD Json.null) ++ ".txt"),
    .revokeObjectURL url ]

/-- Whether the success render offers the download action: not loading, no
error, and the `paste.content &&` guard (part_000 line 142). -/
def showsDownload (s : ViewState) : Bool :=
  !s.loading && s.error = "" &&
    (match s.paste with
     | some p => jsTruthyOpt (jsGet p "content")
     | none => false)

example : decToString ⟨15, -1⟩ = "1.5" := by rfl
example : decToString ⟨-125, 0⟩ = "-125" := by rfl
example : decToString ⟨5, -2⟩ = "0.05" := by rfl
example : decToString ⟨120, -1⟩ = "12" := by rfl
example : encodeURIComponent "a b/c" = "a%20b%2Fc" := by rfl
example : jsErrMessage (some (.str "Not found")) "HTTP 404 - x" = "Not found" := by rfl
example : jsErrMessage (some (.str "")) "HTTP 404 - x" = "HTTP 404 - x" := by rfl
example : jsErrMessage none "" = "Error" := by rfl

/-! ## Helper lemmas -/

theorem parsePositiveIntOrNull_nan_of_not_pos (v : String) (h1 : v ≠ "")
    (h2 : numberIsPositiveInt v = false) : parsePositiveIntOrNull v = .nan := by
  unfold parsePositiveIntOrNull
  rw [if_neg h1]
  unfold numberIsPositiveInt at h2
  cases hv : jsToNumber v with
  | nan => rfl
  | inf n => rfl
  | finite b =>
    rw [hv] at h2
    cases hI : b.isInt <;> cases hO : b.oneLe <;> simp_all

/-! ## Claim theorems -/

/-- C1 counterexample: "1.0000000000000001" is a non-empty decimal string
that is not a positive integer (its exact value is 1 + 10^-16), squarely
inside the claim's quantification, yet `Number` rounds it to exactly 1, so
`createPaste` sends the POST with `ttl_seconds: 1` and sets no validation
error — the claim as stated is false of the program. -/
theorem create_near_integer_decimal_counterexample :
    "1.0000000000000001" ≠ "" ∧
    denotesPositiveInt "1.0000000000000001" = false ∧
    (createPaste
        ⟨"hello", "1.0000000000000001", "", none, "", "", none, "", none, "", false⟩
        ⟨201, "\x7b\"id\":\"z\"\x7d"⟩).2
      = some (Request.post "/api/pastes"
          [("content", Json.str "hello"), ("ttl_seconds", Json.num ⟨1, 0⟩)]) ∧
    (createPaste
        ⟨"hello", "1.0000000000000001", "", none, "", "", none, "", none, "", false⟩
        ⟨201, "\x7b\"id\":\"z\"\x7d"⟩).1.createErr = "" :=
  ⟨by decide, by decide, by rfl, by rfl⟩

/-- C1 (amended): for every create draft whose `ttl_seconds` or `max_views`
string is non-empty and whose value under JavaScript `Number` conversion
(binary64 rounding included) is not an integer ≥ 1, `createPaste` sets a
validation error and sends no network request.  This covers "0", "-1",
"1.5", "abc", negative numbers, non-numeric text and most decimals, but
not decimals within rounding distance of an integer ≥ 1, which the engine
accepts as that integer. -/
theorem create_rejects_nonpositive_numeric_fields (s : ClientState) (resp : Resp)
    (h : (s.ttl ≠ "" ∧ numberIsPositiveInt s.ttl = false) ∨
         (s.maxViews ≠ "" ∧ numberIsPositiveInt s.maxViews = false)) :
    (createPaste s resp).2 = none ∧ (createPaste s resp).1.createErr ≠ "" := by
  have hnan : parsePositiveIntOrNull s.ttl = .nan ∨ parsePositiveIntOrNull s.maxViews = .nan := by
    rcases h with ⟨h1, h2⟩ | ⟨h1, h2⟩
    · exact Or.inl (parsePositiveIntOrNull_nan_of_not_pos _ h1 h2)
    · exact Or.inr (parsePositiveIntOrNull_nan_of_not_pos _ h1 h2)
  unfold createPaste
  dsimp only
  split_ifs with h1 h2 h3 h4 h5
  · exact ⟨rfl, by simp⟩
  · exact ⟨rfl, by simp⟩
  · exact ⟨rfl, by simp⟩
  all_goals exact (hnan.elim (fun ha => absurd ha h2) (fun hb => absurd hb h3))

/-- C1 witness: the draft with content "hello" and ttl string "1.5" (whose
binary64 value 1.5 is exact and not an integer) is rejected without a
request. -/
theorem create_rejects_nonpositive_numeric_fields_witness :
    (createPaste ⟨"hello", "1.5", "", none, "", "", none, "", none, "", false⟩
        ⟨200, "ok"⟩).2 = none ∧
    (createPaste ⟨"hello", "1.5", "", none, "", "", none, "", none, "", false⟩
        ⟨200, "ok"⟩).1.createErr ≠ "" :=
  create_rejects_nonpositive_numeric_fields _ _ (Or.inl ⟨by decide, by decide⟩)

/-- C3: for every draft whose content is empty after trimming, `createPaste`
sets the validation error and issues no network call. -/
theorem create_rejects_blank_content (s : ClientState) (resp : Resp)
    (h : jsTrim s.content = "") :
    (createPaste s resp).2 = none ∧
    (createPaste s resp).1.createErr = "Content is required." := by
  unfold createPaste
  dsimp only
  rw [h]
  exact ⟨rfl, rfl⟩

/-- C3 witness: white-space-only content is rejected without a request. -/
theorem create_rejects_blank_content_witness :
    (createPaste ⟨"  \t ", "60", "", none, "", "", none, "", none, "", false⟩
        ⟨201, "x"⟩).2 = none ∧
    (createPaste ⟨"  \t ", "60", "", none, "", "", none, "", none, "", false⟩
        ⟨201, "x"⟩).1.createErr = "Content is required." :=
  create_rejects_blank_content _ _ (by decide)

/-- C8: whenever `createPaste` sends its POST, an empty `ttl_seconds`
(resp. `max_views`) draft string leaves the corresponding field absent from
the request body. -/
theorem create_omits_empty_optional_fields
    (s : ClientState) (resp : Resp) (p : String) (body : List (String × Json))
    (hreq : (createPaste s resp).2 = some (Request.post p body)) :
    (s.ttl = "" → "ttl_seconds" ∉ body.map Prod.fst) ∧
    (s.maxViews = "" → "max_views" ∉ body.map Prod.fst) := by
  have hshape : (createPaste s resp).2 = none ∨
      (createPaste s resp).2 = some (.post "/api/pastes" (createBody s)) := by
    unfold createPaste
    dsimp only
    split_ifs <;> simp
  rcases hshape with hn | hs
  · rw [hn] at hreq; exact absurd hreq (by simp)
  · rw [hs] at hreq
    injection hreq with hreq1
    injection hreq1 with hp hb
    rw [← hb]
    unfold createBody
    refine ⟨fun httl => ?_, fun hmv => ?_⟩
    · have ht0 : parsePositiveIntOrNull s.ttl = .null := by rw [httl]; rfl
      rw [ht0]
      cases hm0 : parsePositiveIntOrNull s.maxViews <;> simp
    · have hm0 : parsePositiveIntOrNull s.maxViews = .null := by rw [hmv]; rfl
      rw [hm0]
      cases ht0 : parsePositiveIntOrNull s.ttl <;> simp

/-- C8 witness: a draft with both optional fields empty sends a body whose
only key is `content`. -/
theorem create_omits_empty_optional_fields_witness :
    "ttl_seconds" ∉ ([("content", Json.str "note")].map Prod.fst) ∧
    "max_views" ∉ ([("content", Json.str "note")].map Prod.fst) :=
  ⟨(create_omits_empty_optional_fields
      ⟨"note", "", "", none, "", "", none, "", none, "", false⟩
      ⟨201, "\x7b\"id\":\"z\"\x7d"⟩ "/api/pastes" [("content", Json.str "note")]
      (by rfl)).1 rfl,
   (create_omits_empty_optional_fields
      ⟨"note", "", "", none, "", "", none, "", none, "", false⟩
      ⟨201, "\x7b\"id\":\"z\"\x7d"⟩ "/api/pastes" [("content", Json.str "note")]
      (by rfl)).2 rfl⟩

/-- C7: the health action never touches the fetch result/error slots, and
the fetch action never touches the health result/error slots, on every
outcome. -/
theorem health_and_fetch_slots_independent (s : ClientState) (resp : Resp) :
    ((checkHealth s resp).1.fetchRes = s.fetchRes ∧
     (checkHealth s resp).1.fetchErr = s.fetchErr) ∧
    ((fetchPaste s resp).1.healthRes = s.healthRes ∧
     (fetchPaste s resp).1.healthErr = s.healthErr) := by
  refine ⟨⟨?_, ?_⟩, ?_, ?_⟩ <;>
    first
      | (unfold checkHealth; dsimp only; split_ifs <;> rfl)
      | (unfold fetchPaste; dsimp only; split_ifs <;> rfl)

/-- C4: the decoder reads the body text exactly once, returns the raw text
unchanged, and returns the parsed JSON value or the `null` absence marker;
it is a total function, so malformed JSON never raises. -/
theorem safeJsonResponse_decodes_once (b : BodyStream) :
    (safeJsonResponseStream b).2.readsDone = b.readsDone + 1 ∧
    (safeJsonResponseStream b).1.text = b.text ∧
    (safeJsonResponseStream b).1.json = (jsonParse b.text).getD Json.null := by
  cases hj : jsonParse b.text <;>
    simp [safeJsonResponseStream, readBodyText, safeJsonResponse, hj]

/-- C2 counterexample: a 200 response whose body is "null" parses as JSON
(to the JSON null value), yet the fetch action reports the shape error and
does not populate the success state, contrary to the claim's "if the body
parses as JSON the success state is set to the parsed value". -/
theorem fetch_parsed_falsy_body_counterexample :
    jsonParse "null" = some Json.null ∧
    (fetchPaste ⟨"", "", "", none, "", "x", none, "", none, "", false⟩
        ⟨200, "null"⟩).1.fetchRes = none ∧
    (fetchPaste ⟨"", "", "", none, "", "x", none, "", none, "", false⟩
        ⟨200, "null"⟩).1.fetchErr = "Non-JSON response (HTTP 200)." :=
  ⟨rfl, rfl, rfl⟩

/-- C2 (amended): for a 2xx fetch response, a body parsing to a truthy JSON
value populates the success state with the parsed value and leaves the error
empty; a body that does not parse — or parses to a falsy value (null,
false, 0 or "") — sets the shape-error message and leaves the success state
empty.  The shape message is the distinct "Non-JSON response" form, and no
exception escapes (the step function is total). -/
theorem fetch_2xx_decoding (s : ClientState) (resp : Resp)
    (hok : resp.ok = true) (hid : jsTrim s.pasteId ≠ "") :
    (∀ j, jsonParse resp.body = some j → jsTruthy j = true →
        (fetchPaste s resp).1.fetchRes = some j ∧
        (fetchPaste s resp).1.fetchErr = "") ∧
    ((jsonParse resp.body = none ∨
        (∃ j, jsonParse resp.body = some j ∧ jsTruthy j = false)) →
      (fetchPaste s resp).1.fetchRes = none ∧
      (fetchPaste s resp).1.fetchErr =
        "Non-JSON response (HTTP " ++ toString resp.status ++ ").") := by
  unfold fetchPaste
  dsimp only
  rw [if_neg hid]
  constructor
  · intro j hj htr
    have hd : safeJsonResponse resp.body = ⟨j, resp.body⟩ := by
      unfold safeJsonResponse; rw [hj]
    rw [hd]
    simp [hok, htr]
  · intro hfal
    have hd : jsTruthy (safeJsonResponse resp.body).json = false := by
      rcases hfal with hn | ⟨j, hj, hf⟩
      · unfold safeJsonResponse; rw [hn]; rfl
      · unfold safeJsonResponse; rw [hj]; exact hf
    simp [hok, hd]

/-- C2 witness: a 200 response with object body populates the fetch success
state. -/
theorem fetch_2xx_decoding_witness :
    (fetchPaste ⟨"", "", "", none, "", "x", none, "", none, "", false⟩
        ⟨200, "\x7b\"ok\":true\x7d"⟩).1.fetchRes
      = some (Json.obj [("ok", Json.bool true)]) ∧
    (fetchPaste ⟨"", "", "", none, "", "x", none, "", none, "", false⟩
        ⟨200, "\x7b\"ok\":true\x7d"⟩).1.fetchErr = "" :=
  (fetch_2xx_decoding _ _ (by decide) (by decide)).1
    (Json.obj [("ok", Json.bool true)]) (by rfl) (by rfl)

theorem httpErrSynth_ne_empty (st : ℕ) (t : String) (n : ℕ) (fb : String) :
    httpErrSynth st t n fb ≠ "" := by
  unfold httpErrSynth
  intro h
  have hlen := congrArg String.length h
  simp [String.length_append] at hlen
  exact absurd hlen.1.1.1 (by decide)

/-- C6 counterexample: a 404 body of exactly the JSON object with an empty
`error` field does carry an `error` field, yet the surfaced message is the
synthesized one, not that field's (empty) value — the claim's "equals the
backend's error field when the parsed JSON body has one" fails. -/
theorem fetch_empty_error_field_counterexample :
    jsonParse "\x7b\"error\":\"\"\x7d" = some (Json.obj [("error", Json.str "")]) ∧
    (fetchPaste ⟨"", "", "", none, "", "x", none, "", none, "", false⟩
        ⟨404, "\x7b\"error\":\"\"\x7d"⟩).1.fetchErr = "HTTP 404 - \x7b\"error\":\"\"\x7d" ∧
    "HTTP 404 - \x7b\"error\":\"\"\x7d" ≠ "" :=
  ⟨rfl, rfl, by decide⟩

/-- C6 (amended): for a non-2xx fetch response, the error message equals the
backend's `error` field whenever the parsed body carries a non-empty string
`error` field; otherwise (unparseable body, missing field, or falsy field
value) it is the synthesized `HTTP {status} - {body truncated to 140}`
message, whose fallback text when the truncated body is empty is
"Not found". -/
theorem fetch_error_message_shape (s : ClientState) (resp : Resp)
    (hok : resp.ok = false) (hid : jsTrim s.pasteId ≠ "") :
    (∀ j e, jsonParse resp.body = some j →
        jsGet j "error" = some (Json.str e) → e ≠ "" →
        (fetchPaste s resp).1.fetchErr = e) ∧
    (jsTruthyOpt (jsGet (safeJsonResponse resp.body).json "error") = false →
        (fetchPaste s resp).1.fetchErr = httpErrSynth resp.status resp.body 140 "Not found") := by
  unfold fetchPaste
  dsimp only
  rw [if_neg hid]
  have htext : (safeJsonResponse resp.body).text = resp.body := by
    unfold safeJsonResponse
    cases jsonParse resp.body <;> rfl
  constructor
  · intro j e hj he hne
    have hd : safeJsonResponse resp.body = ⟨j, resp.body⟩ := by
      unfold safeJsonResponse; rw [hj]
    rw [hd]
    simp [hok, he, jsErrMessage, jsTruthy, jsToString, hne]
  · intro hfal
    simp only [hok, Bool.not_false, if_true, Bool.false_eq_true]
    rw [htext]
    cases hv : jsGet (safeJsonResponse resp.body).json "error" with
    | none => simp [jsErrMessage, httpErrSynth_ne_empty resp.status resp.body 140 "Not found"]
    | some v =>
      rw [hv] at hfal
      simp only [jsTruthyOpt] at hfal
      simp [jsErrMessage, hfal, httpErrSynth_ne_empty resp.status resp.body 140 "Not found"]

/-- C6 witness: a 404 body carrying a non-empty `error` field surfaces
exactly that field. -/
theorem fetch_error_message_shape_witness :
    (fetchPaste ⟨"", "", "", none, "", "x", none, "", none, "", false⟩
        ⟨404, "\x7b\"error\":\"Not found\"\x7d"⟩).1.fetchErr = "Not found" :=
  (fetch_error_message_shape _ _ (by decide) (by decide)).1
    (Json.obj [("error", Json.str "Not found")]) "Not found" (by rfl) (by rfl) (by decide)

/-- C5 counterexample: a 201 response whose parsed body carries the `id`
field with the falsy value "" leaves the create-result state empty and the
identifier field untouched, reporting the missing-id error instead — the
claim's "parsed JSON body containing an id field" quantification fails. -/
theorem create_falsy_id_claim_counterexample :
    Resp.ok ⟨201, "\x7b\"id\":\"\"\x7d"⟩ = true ∧
    jsonParse "\x7b\"id\":\"\"\x7d" = some (Json.obj [("id", Json.str "")]) ∧
    (createPaste ⟨"hello", "", "", none, "", "", none, "", none, "", false⟩
        ⟨201, "\x7b\"id\":\"\"\x7d"⟩).1.createRes = none ∧
    (createPaste ⟨"hello", "", "", none, "", "", none, "", none, "", false⟩
        ⟨201, "\x7b\"id\":\"\"\x7d"⟩).1.createErr = "Unexpected response: missing paste id." ∧
    (createPaste ⟨"hello", "", "", none, "", "", none, "", none, "", false⟩
        ⟨201, "\x7b\"id\":\"\"\x7d"⟩).1.pasteId = "" :=
  ⟨rfl, rfl, rfl, rfl, rfl⟩

/-- C5 (amended): for a create response with HTTP success status and a
parsed JSON body containing a truthy `id` field, the create-result state is
set to the full parsed payload, the fetch identifier field is set to (the
string conversion of) that id, and no error is reported. -/
theorem create_success_sets_result_and_id (s : ClientState) (resp : Resp)
    (j v : Json)
    (hok : resp.ok = true) (hj : jsonParse resp.body = some j)
    (hid : jsGet j "id" = some v) (htr : jsTruthy v = true)
    (hc : jsTrim s.content ≠ "")
    (ht : parsePositiveIntOrNull s.ttl ≠ .nan)
    (hm : parsePositiveIntOrNull s.maxViews ≠ .nan) :
    (createPaste s resp).1.createRes = some j ∧
    (createPaste s resp).1.pasteId = jsToString v ∧
    (createPaste s resp).1.createErr = "" := by
  unfold createPaste
  dsimp only
  rw [if_neg hc, if_neg ht, if_neg hm]
  have hd : safeJsonResponse resp.body = ⟨j, resp.body⟩ := by
    unfold safeJsonResponse; rw [hj]
  rw [hd]
  simp [hok, hid, htr, jsTruthyOpt]

/-- C5 witness: a 201 response with body carrying id "abc123" fills both the
create result and the fetch identifier field. -/
theorem create_success_sets_result_and_id_witness :
    (createPaste ⟨"hello world", "60", "2", none, "", "", none, "", none, "", false⟩
        ⟨201, "\x7b\"id\":\"abc123\"\x7d"⟩).1.createRes
      = some (Json.obj [("id", Json.str "abc123")]) ∧
    (createPaste ⟨"hello world", "60", "2", none, "", "", none, "", none, "", false⟩
        ⟨201, "\x7b\"id\":\"abc123\"\x7d"⟩).1.pasteId = "abc123" ∧
    (createPaste ⟨"hello world", "60", "2", none, "", "", none, "", none, "", false⟩
        ⟨201, "\x7b\"id\":\"abc123\"\x7d"⟩).1.createErr = "" :=
  create_success_sets_result_and_id _ _
    (Json.obj [("id", Json.str "abc123")]) (Json.str "abc123")
    (by decide) (by rfl) (by rfl) (by rfl) (by decide) (by decide) (by decide)

/-- C10: for a create response with HTTP success status whose parsed body
has an `id` field with a falsy value, the missing-id error is reported and
the create-result state stays empty. -/
theorem create_falsy_id_reports_missing (s : ClientState) (resp : Resp)
    (j v : Json)
    (hok : resp.ok = true) (hj : jsonParse resp.body = some j)
    (hid : jsGet j "id" = some v) (hfal : jsTruthy v = false)
    (hc : jsTrim s.content ≠ "")
    (ht : parsePositiveIntOrNull s.ttl ≠ .nan)
    (hm : parsePositiveIntOrNull s.maxViews ≠ .nan) :
    (createPaste s resp).1.createErr = "Unexpected response: missing paste id." ∧
    (createPaste s resp).1.createRes = none := by
  unfold createPaste
  dsimp only
  rw [if_neg hc, if_neg ht, if_neg hm]
  have hd : safeJsonResponse resp.body = ⟨j, resp.body⟩ := by
    unfold safeJsonResponse; rw [hj]
  rw [hd]
  simp [hok, hid, hfal, jsTruthyOpt]

/-- C10 witness: a 200 response with body carrying id 0 reports the
missing-id error. -/
theorem create_falsy_id_reports_missing_witness :
    (createPaste ⟨"note text", "", "", none, "", "", none, "", none, "", false⟩
        ⟨200, "\x7b\"id\":0\x7d"⟩).1.createErr = "Unexpected response: missing paste id." ∧
    (createPaste ⟨"note text", "", "", none, "", "", none, "", none, "", false⟩
        ⟨200, "\x7b\"id\":0\x7d"⟩).1.createRes = none :=
  create_falsy_id_reports_missing _ _
    (Json.obj [("id", Json.num ⟨0, 0⟩)]) (Json.num ⟨0, 0⟩)
    (by decide) (by rfl) (by rfl) (by rfl) (by decide) (by decide) (by decide)

/-- C9 counterexample: with route identifier "xyz" but a successful response
whose body carries id "abc", the download file name is built from the
response body's id — "paste-abc.txt", not "paste-xyz.txt" — so the claim's
universal quantification over successful GETs fails. -/
theorem viewer_download_name_counterexample :
    (viewFetch "xyz" viewInit
        ⟨200, "\x7b\"id\":\"abc\",\"content\":\"hi\"\x7d"⟩).1.paste
      = some (Json.obj [("id", Json.str "abc"), ("content", Json.str "hi")]) ∧
    downloadClick (Json.obj [("id", Json.str "abc"), ("content", Json.str "hi")]) "blob:u1"
      = [ .createObjectURL "hi" "text/plain",
          .anchorClick "blob:u1" "paste-abc.txt",
          .revokeObjectURL "blob:u1" ] ∧
    "paste-abc.txt" ≠ "paste-xyz.txt" :=
  ⟨rfl, rfl, by decide⟩

/-- C9 (amended): for every non-empty route identifier and successful GET
whose JSON body has a string id and non-empty string content, the viewer
stores the payload, offers the download, and the download click produces a
text/plain blob of the content under the name `paste-{id}.txt` built from
the response body's id (equal to the requested identifier whenever the
backend returns the requested paste), then revokes the same object URL it
created. -/
theorem viewer_download_produces_named_file (routeId : String) (resp : Resp)
    (p : Json) (cs ids url : String)
    (hroute : routeId ≠ "") (hok : resp.ok = true)
    (hj : jsonParse resp.body = some p)
    (hcon : jsGet p "content" = some (Json.str cs)) (hcs : cs ≠ "")
    (hid : jsGet p "id" = some (Json.str ids)) :
    (viewFetch routeId viewInit resp).1.paste = some p ∧
    showsDownload (viewFetch routeId viewInit resp).1 = true ∧
    downloadClick p url =
      [ .createObjectURL cs "text/plain",
        .anchorClick url ("paste-" ++ ids ++ ".txt"),
        .revokeObjectURL url ] := by
  have hobj : jsTruthy p = true := by
    cases p with
    | obj fs => rfl
    | null => exact absurd hcon (by simp [jsGet])
    | bool b => exact absurd hcon (by simp [jsGet])
    | num d => exact absurd hcon (by simp [jsGet])
    | str s2 => exact absurd hcon (by simp [jsGet])
    | arr xs => exact absurd hcon (by simp [jsGet])
  have hd : safeJsonResponse resp.body = ⟨p, resp.body⟩ := by
    unfold safeJsonResponse; rw [hj]
  have hstate : (viewFetch routeId viewInit resp).1 = ⟨some p, false, ""⟩ := by
    unfold viewFetch
    rw [if_neg hroute, hd]
    simp [hok, hobj, viewInit]
  refine ⟨by rw [hstate], ?_, ?_⟩
  · rw [hstate]
    simp [showsDownload, hcon, jsTruthyOpt, jsTruthy, hcs]
  · simp [downloadClick, hcon, hid, jsToString]

/-- C9 witness: identifier "xyz" with a conforming response produces the
file `paste-xyz.txt` holding the content and releases the object URL. -/
theorem viewer_download_produces_named_file_witness :
    (viewFetch "xyz" viewInit
        ⟨200, "\x7b\"id\":\"xyz\",\"content\":\"hi\"\x7d"⟩).1.paste
      = some (Json.obj [("id", Json.str "xyz"), ("content", Json.str "hi")]) ∧
    showsDownload (viewFetch "xyz" viewInit
        ⟨200, "\x7b\"id\":\"xyz\",\"content\":\"hi\"\x7d"⟩).1 = true ∧
    downloadClick (Json.obj [("id", Json.str "xyz"), ("content", Json.str "hi")]) "blob:u2"
      = [ .createObjectURL "hi" "text/plain",
          .anchorClick "blob:u2" "paste-xyz.txt",
          .revokeObjectURL "blob:u2" ] :=
  viewer_download_produces_named_file "xyz" _
    (Json.obj [("id", Json.str "xyz"), ("content", Json.str "hi")]) "hi" "xyz" "blob:u2"
    (by decide) (by decide) (by rfl) (by rfl) (by decide) (by rfl)
